import Mathlib

/-!
Shallow embedding of `src/backend/app.py`, the Flask voice-assistant backend
of the mb3 repository.  The external providers (Sarvam ASR, Sarvam translate,
Sarvam TTS, OpenRouter chat) are opaque network services; a run of the
endpoint is modelled as a pure function of the provider responses that the
run would observe, the knowledge-base file state, the request shape, and the
shared in-memory `conversation_history` list.  Wall-clock timing fields
(`timings`, `totalTime`) are observational only and are not modelled.  For
each provider response, the `ok` flag models `raise_for_status` together
with any exception raised while obtaining the body: both abort the step by
raising, and the exception is caught by the generic handler of the endpoint.
-/

set_option autoImplicit false

namespace MB3

/-- One chat message, a dict with a role field and a content field, as built
at `app.py` lines 202-206 and 225-226. -/
structure Turn where
  role : String
  content : String
deriving DecidableEq, Repr

/-- Python truthiness of an optional string value: `None` and the empty
string are falsy, every other string is truthy. -/
def strTruthy : Option String → Bool
  | some s => s ≠ ""
  | none => false

/-- Python `a or b` on optional strings: yields `a` when `a` is truthy,
otherwise `b`.  Models the transcript-or-text fallback at `app.py`
line 186. -/
def pyOr (a b : Option String) : Option String :=
  if strTruthy a then a else b

/-- JSON body of the ASR provider response: the two fields the code reads at
`app.py` line 186.  `none` models an absent field (dict `.get` returns
`None`). -/
structure AsrJson where
  transcript : Option String
  text : Option String
deriving DecidableEq, Repr

/-- ASR provider response: `ok` is the HTTP-status success flag tested by
`raise_for_status` at `app.py` line 184, `json` the parsed body. -/
structure AsrResp where
  ok : Bool
  json : AsrJson
deriving DecidableEq, Repr

/-- Translation provider response: `ok` as checked by `raise_for_status`,
`output` the optional output field of the JSON body, `app.py` lines 132-134
and 149-151. -/
structure TranslateResp where
  ok : Bool
  output : Option String
deriving DecidableEq, Repr

/-- The message object inside an OpenRouter choices entry; `content` is its
optional content field, `app.py` line 218. -/
structure LLMMessage where
  content : Option String
deriving DecidableEq, Repr

/-- One entry of the OpenRouter choices array; `message` is the optional
message field, `app.py` line 218. -/
structure LLMChoice where
  message : Option LLMMessage
deriving DecidableEq, Repr

/-- OpenRouter chat response: `ok` as checked by `raise_for_status` at
`app.py` line 216, `choices` the optional choices array of the JSON body. -/
structure LLMResp where
  ok : Bool
  choices : Option (List LLMChoice)
deriving DecidableEq, Repr

/-- Sarvam TTS response: `ok` as checked by `raise_for_status` at `app.py`
line 105, `parseOk` whether reading the JSON body succeeds (the `try` at
lines 106-113), `audios` the optional audios array. -/
structure TTSResp where
  ok : Bool
  parseOk : Bool
  audios : Option (List String)
deriving DecidableEq, Repr

/-- State of the knowledge-base file `data.txt` as observed by one request:
absent on disk, present but unreadable (the exception branch of
`read_data_txt`), or readable with the given content. -/
inductive FileState where
  | absent
  | unreadable
  | content (s : String)
deriving DecidableEq, Repr

/-- Model of `read_data_txt`, `app.py` lines 80-89: returns the file
content, or a placeholder error string when the file is missing or
unreadable; it never raises to its caller. -/
def read_data_txt : FileState → String
  | .absent => "Error: Knowledge base file (data.txt) not found."
  | .unreadable => "Error: Could not load knowledge base due to an exception."
  | .content s => s

/-- Model of `translate_to_english`, `app.py` lines 137-151: raises on a
non-success HTTP status (modelled as `.error ()`); otherwise returns the
output field of the body when present, else the original input text. -/
def translate_to_english (text : String) (resp : TranslateResp) : Except Unit String :=
  if resp.ok then .ok (resp.output.getD text) else .error ()

/-- Model of `translate_to_telugu`, `app.py` lines 117-134: same result
shape as `translate_to_english` (the endpoint payload differs, the result
extraction is identical). -/
def translate_to_telugu (text : String) (resp : TranslateResp) : Except Unit String :=
  if resp.ok then .ok (resp.output.getD text) else .error ()

/-- Model of `get_tts_audio_base64`, `app.py` lines 92-114.  A non-success
HTTP status raises out of the function (`.error ()`).  Otherwise the
function returns the first element of the audios array when that field is a
non-empty array, and `None` when the field is absent, empty, or the JSON
body cannot be parsed — logging an error in those cases.  The returned pair
is the audio value together with whether an error was logged. -/
def get_tts_audio_base64 (resp : TTSResp) : Except Unit (Option String × Bool) :=
  if !resp.ok then .error ()
  else if !resp.parseOk then .ok (none, true)
  else match resp.audios with
    | some (a :: _) => .ok (some a, false)
    | _ => .ok (none, true)

/-- Extraction of the nested choices, message and content fields with their
defaults, `app.py` line 218.  `none` models the IndexError raised when the
choices field is present but an empty list (caught by the generic handler of
the endpoint); otherwise the extracted string, with the empty string as the
default at each level. -/
def llm_extract (choices : Option (List LLMChoice)) : Option String :=
  match choices.getD [{ message := none }] with
  | [] => none
  | c :: _ => some (((c.message.getD { content := none }).content).getD "")

/-- The persona prompt `SYSTEM_PROMPT_BASE`, `app.py` lines 42-74.  Its
literal text is a fixed constant that no claim depends on; the body is
elided here and stands for the full persona text. -/
def SYSTEM_PROMPT_BASE : String := "[Raj persona prompt]"

/-- One outbound provider call made by a run, with the payload that matters
to the pipeline dataflow. -/
inductive ExtCall where
  | asrCall
  | translateEnCall (input : String)
  | llmCall (messages : List Turn)
  | translateTeCall (input : String)
  | ttsCall (text : String)
deriving DecidableEq, Repr

/-- The details field of a JSON error body: absent, the rendered exception
from the generic handler, the echoed ASR body, or the echoed LLM body. -/
inductive Details where
  | noDetails
  | exn
  | asrData (j : AsrJson)
  | llmData (choices : Option (List LLMChoice))
deriving DecidableEq, Repr

/-- HTTP response of the endpoint: 400 with an error field, 500 with an
error field and optional details, or the 200 JSON body of `app.py` lines
244-252 (timing fields elided). -/
inductive Resp where
  | badRequest (error : String)
  | serverError (error : String) (details : Details)
  | success (userTranscript translatedTranscript assistantReply assistantReplyHindi : String)
      (audioBase64 : Option String)
deriving DecidableEq, Repr

/-- Whether a response is the 200 success shape. -/
def Resp.isSuccess : Resp → Bool
  | .success _ _ _ _ _ => true
  | _ => false

/-- Provider responses and file state observed by one run. -/
structure World where
  asr : AsrResp
  translateEn : TranslateResp
  llm : LLMResp
  translateTe : TranslateResp
  tts : TTSResp
  dataFile : FileState
deriving DecidableEq, Repr

/-- Result of one run of the endpoint: the HTTP response, the shared
`conversation_history` after the run, and the outbound calls made, in
order. -/
structure RunResult where
  response : Resp
  history : List Turn
  calls : List ExtCall
deriving DecidableEq, Repr

/-- The `transcribe_and_chat` endpoint handler, `app.py` lines 154-256.
`keysConfigured` models both API keys being set; `hasAudio` models the
audio field being present in the uploaded form.  Exceptions raised by a
step are caught by the handler at line 254 and mapped to the generic 500
body.  Note the history append (lines 224-226) happens before the reply
translation and TTS steps (lines 228-238). -/
def transcribe_and_chat (keysConfigured hasAudio : Bool) (w : World)
    (conversation_history : List Turn) : RunResult :=
  if !hasAudio then
    { response := .badRequest "No audio file uploaded.",
      history := conversation_history, calls := [] }
  else if !keysConfigured then
    { response := .serverError "API keys not configured on the server." .noDetails,
      history := conversation_history, calls := [] }
  else if !w.asr.ok then
    { response := .serverError "An internal server error occurred." .exn,
      history := conversation_history, calls := [.asrCall] }
  else
    let transcribed_opt := pyOr w.asr.json.transcript w.asr.json.text
    if !strTruthy transcribed_opt then
      { response := .serverError "Failed to transcribe audio. No transcript returned."
          (.asrData w.asr.json),
        history := conversation_history, calls := [.asrCall] }
    else
      let transcribed_text := transcribed_opt.getD ""
      match translate_to_english transcribed_text w.translateEn with
      | .error _ =>
        { response := .serverError "An internal server error occurred." .exn,
          history := conversation_history,
          calls := [.asrCall, .translateEnCall transcribed_text] }
      | .ok translated_text =>
        let data_txt_content := read_data_txt w.dataFile
        let current_system_prompt :=
          SYSTEM_PROMPT_BASE ++ "\n\nKnowledge base from data.txt:\n" ++ data_txt_content
        let messages_for_llm : List Turn :=
          { role := "system", content := current_system_prompt } ::
            (conversation_history ++ [{ role := "user", content := translated_text }])
        if !w.llm.ok then
          { response := .serverError "An internal server error occurred." .exn,
            history := conversation_history,
            calls := [.asrCall, .translateEnCall transcribed_text, .llmCall messages_for_llm] }
        else
          match llm_extract w.llm.choices with
          | none =>
            { response := .serverError "An internal server error occurred." .exn,
              history := conversation_history,
              calls := [.asrCall, .translateEnCall transcribed_text, .llmCall messages_for_llm] }
          | some assistant_reply =>
            if assistant_reply = "" then
              { response := .serverError "LLM did not return content." (.llmData w.llm.choices),
                history := conversation_history,
                calls := [.asrCall, .translateEnCall transcribed_text, .llmCall messages_for_llm] }
            else
              let new_history := conversation_history ++
                [{ role := "user", content := translated_text },
                 { role := "assistant", content := assistant_reply }]
              match translate_to_telugu assistant_reply w.translateTe with
              | .error _ =>
                { response := .serverError "An internal server error occurred." .exn,
                  history := new_history,
                  calls := [.asrCall, .translateEnCall transcribed_text,
                    .llmCall messages_for_llm, .translateTeCall assistant_reply] }
              | .ok translated_reply =>
                match get_tts_audio_base64 w.tts with
                | .error _ =>
                  { response := .serverError "An internal server error occurred." .exn,
                    history := new_history,
                    calls := [.asrCall, .translateEnCall transcribed_text,
                      .llmCall messages_for_llm, .translateTeCall assistant_reply,
                      .ttsCall translated_reply] }
                | .ok (audio_base64, _) =>
                  { response := .success transcribed_text translated_text assistant_reply
                      translated_reply audio_base64,
                    history := new_history,
                    calls := [.asrCall, .translateEnCall transcribed_text,
                      .llmCall messages_for_llm, .translateTeCall assistant_reply,
                      .ttsCall translated_reply] }

/-- Helper: every run either leaves the shared history unchanged with a
non-success response, or appends exactly the complete (user, assistant)
pair; in the latter case the run has reached the reply-translation call,
the stored user content is the pivot-translation of the transcript, and the
response is either an error (failure after the append) or the success body
built from the same values. -/
theorem run_master (k a : Bool) (w : World) (h : List Turn) :
    ((transcribe_and_chat k a w h).response.isSuccess = false ∧
     (transcribe_and_chat k a w h).history = h) ∨
    (∃ ut t v rep ab,
      translate_to_english ut w.translateEn = .ok t ∧
      (transcribe_and_chat k a w h).history =
        h ++ [Turn.mk "user" t, Turn.mk "assistant" v] ∧
      ExtCall.translateTeCall v ∈ (transcribe_and_chat k a w h).calls ∧
      ((transcribe_and_chat k a w h).response.isSuccess = false ∨
       (transcribe_and_chat k a w h).response = .success ut t v rep ab)) := by
  obtain ⟨r, hr⟩ : ∃ r, transcribe_and_chat k a w h = r := ⟨_, rfl⟩
  rw [hr]
  unfold transcribe_and_chat at hr
  simp only [] at hr
  repeat' split at hr
  all_goals subst hr
  all_goals first
    | exact Or.inl ⟨rfl, rfl⟩
    | exact Or.inr ⟨_, _, _, "", none, by assumption, rfl, by simp, Or.inl rfl⟩
    | exact Or.inr ⟨_, _, _, _, _, by assumption, rfl, by simp, Or.inr rfl⟩

/-- A fully successful provider world: ASR yields a transcript, both
translations return an output, the LLM returns a non-empty reply, TTS
returns one audio chunk, and the knowledge-base file is readable. -/
def wOK : World :=
  { asr := { ok := true, json := { transcript := some "ghar chahiye", text := none } },
    translateEn := { ok := true, output := some "I need a home" },
    llm := { ok := true,
             choices := some [{ message := some { content := some "Two BHK in Gurgaon." } }] },
    translateTe := { ok := true, output := some "Gurgaon lo two BHK." },
    tts := { ok := true, parseOk := true, audios := some ["QUJD"] },
    dataFile := .content "listings" }

/-- Like `wOK` but the reply-translation call fails with a non-success HTTP
status, so the run fails after the history append. -/
def wTteFail : World := { wOK with translateTe := { ok := false, output := none } }

/-- Claim C1 as stated is false: in the concrete world `wTteFail` every step
up to generation succeeds, the reply-translation step then fails, the run
returns an error response — yet the shared history has changed, because the
append at `app.py` lines 224-226 runs before reply translation and
synthesis. -/
theorem C1_counterexample :
    (transcribe_and_chat true true wTteFail []).response.isSuccess = false ∧
    (transcribe_and_chat true true wTteFail []).history ≠ [] ∧
    (transcribe_and_chat true true wTteFail []).history =
      [Turn.mk "user" "I need a home", Turn.mk "assistant" "Two BHK in Gurgaon."] := by
  refine ⟨?_, ?_, ?_⟩ <;>
    simp [transcribe_and_chat, wTteFail, wOK, strTruthy, pyOr, llm_extract,
          translate_to_english, translate_to_telugu, get_tts_audio_base64, Resp.isSuccess]

/-- Claim C1, amended: for every failed run of the pipeline the shared
history is never partially mutated — it is either unchanged (failures at
transcription, pivot translation, or generation), or grown by exactly the
complete (user, assistant) pair when the failure occurred at reply
translation or synthesis, which execute after the append. -/
theorem C1_failed_run_no_partial_append (k a : Bool) (w : World) (h : List Turn)
    (_hfail : (transcribe_and_chat k a w h).response.isSuccess = false) :
    (transcribe_and_chat k a w h).history = h ∨
    ∃ u v, (transcribe_and_chat k a w h).history =
        h ++ [Turn.mk "user" u, Turn.mk "assistant" v] ∧
      ExtCall.translateTeCall v ∈ (transcribe_and_chat k a w h).calls := by
  rcases run_master k a w h with ⟨_, hh⟩ | ⟨ut, t, v, rep, ab, htr, hh, hmem, hresp⟩
  · exact Or.inl hh
  · exact Or.inr ⟨t, v, hh, hmem⟩

/-- Witness for C1: the amended theorem applied to the concrete failing run
on `wTteFail`. -/
theorem C1_witness :
    (transcribe_and_chat true true wTteFail []).history = [] ∨
    ∃ u v, (transcribe_and_chat true true wTteFail []).history =
        [] ++ [Turn.mk "user" u, Turn.mk "assistant" v] ∧
      ExtCall.translateTeCall v ∈ (transcribe_and_chat true true wTteFail []).calls :=
  C1_failed_run_no_partial_append true true wTteFail [] (by
    simp [transcribe_and_chat, wTteFail, wOK, strTruthy, pyOr, llm_extract,
          translate_to_english, translate_to_telugu, get_tts_audio_base64, Resp.isSuccess])

/-- Claim C2: every run that returns the 200 response grows the shared
history by exactly two turns, a user turn then an assistant turn, appended
at the end in that order. -/
theorem C2_success_appends_pair (k a : Bool) (w : World) (h : List Turn)
    (hs : (transcribe_and_chat k a w h).response.isSuccess = true) :
    ∃ u v, (transcribe_and_chat k a w h).history =
      h ++ [Turn.mk "user" u, Turn.mk "assistant" v] := by
  rcases run_master k a w h with ⟨hns, _⟩ | ⟨ut, t, v, _, _, _, hh, _, _⟩
  · rw [hns] at hs; exact Bool.noConfusion hs
  · exact ⟨t, v, hh⟩

/-- Witness for C2: the theorem applied to the concrete successful run on
`wOK`. -/
theorem C2_witness :
    ∃ u v, (transcribe_and_chat true true wOK []).history =
      [] ++ [Turn.mk "user" u, Turn.mk "assistant" v] :=
  C2_success_appends_pair true true wOK [] (by
    simp [transcribe_and_chat, wOK, strTruthy, pyOr, llm_extract,
          translate_to_english, translate_to_telugu, get_tts_audio_base64, Resp.isSuccess])

/-- Claim C3: on every successful run the user turn stored in the shared
history carries the post-pivot-translation text — the output of
`translate_to_english` applied to the transcript — not the raw ASR
transcript. -/
theorem C3_user_turn_is_pivot_translation (k a : Bool) (w : World) (h : List Turn)
    (hs : (transcribe_and_chat k a w h).response.isSuccess = true) :
    ∃ ut t v rep ab,
      (transcribe_and_chat k a w h).response = .success ut t v rep ab ∧
      translate_to_english ut w.translateEn = .ok t ∧
      (transcribe_and_chat k a w h).history =
        h ++ [Turn.mk "user" t, Turn.mk "assistant" v] := by
  rcases run_master k a w h with ⟨hns, _⟩ | ⟨ut, t, v, rep, ab, htr, hh, _, hresp⟩
  · rw [hns] at hs; exact Bool.noConfusion hs
  · rcases hresp with hns | hresp
    · rw [hns] at hs; exact Bool.noConfusion hs
    · exact ⟨ut, t, v, rep, ab, hresp, htr, hh⟩

/-- Witness for C3: the theorem applied to the concrete successful run on
`wOK`, where the stored user content is the translated text. -/
theorem C3_witness :
    ∃ ut t v rep ab,
      (transcribe_and_chat true true wOK []).response = .success ut t v rep ab ∧
      translate_to_english ut wOK.translateEn = .ok t ∧
      (transcribe_and_chat true true wOK []).history =
        [] ++ [Turn.mk "user" t, Turn.mk "assistant" v] :=
  C3_user_turn_is_pivot_translation true true wOK [] (by
    simp [transcribe_and_chat, wOK, strTruthy, pyOr, llm_extract,
          translate_to_english, translate_to_telugu, get_tts_audio_base64, Resp.isSuccess])

/-- Claim C4: a request without the audio form field gets the 400 response
with the error message, no external provider call is made, and the shared
history is unchanged. -/
theorem C4_missing_audio_400_no_calls (k : Bool) (w : World) (h : List Turn) :
    (transcribe_and_chat k false w h).response = .badRequest "No audio file uploaded." ∧
    (transcribe_and_chat k false w h).calls = [] ∧
    (transcribe_and_chat k false w h).history = h := by
  unfold transcribe_and_chat
  exact ⟨rfl, rfl, rfl⟩

/-- Claim C5: when the translation provider returns success but its JSON
lacks the output field, both translation adapters return the original input
text unchanged, and a pipeline run whose to-English response has that shape
does not fail at the translation step — whenever the to-English call was
made, the LLM call is made as well. -/
theorem C5_translation_fallback (text : String) (resp : TranslateResp)
    (hok : resp.ok = true) (hout : resp.output = none) :
    translate_to_english text resp = .ok text ∧
    translate_to_telugu text resp = .ok text ∧
    ∀ (k : Bool) (w : World) (h : List Turn) (t : String),
      w.translateEn = resp →
      ExtCall.translateEnCall t ∈ (transcribe_and_chat k true w h).calls →
      ∃ msgs, ExtCall.llmCall msgs ∈ (transcribe_and_chat k true w h).calls := by
  refine ⟨by simp [translate_to_english, hok, hout],
    by simp [translate_to_telugu, hok, hout], ?_⟩
  intro k w h t hw hmem
  obtain ⟨r, hr⟩ : ∃ r, transcribe_and_chat k true w h = r := ⟨_, rfl⟩
  rw [hr] at hmem ⊢
  unfold transcribe_and_chat at hr
  simp only [] at hr
  repeat' split at hr
  all_goals subst hr
  all_goals first
    | exact ⟨_, by simp⟩
    | simp_all [translate_to_english]

/-- Witness for C5: the fallback evaluated on a concrete input and a
concrete output-less provider response. -/
theorem C5_witness :
    translate_to_english "hi" { ok := true, output := none } = .ok "hi" :=
  (C5_translation_fallback "hi" { ok := true, output := none } rfl rfl).1

/-- Claim C6: when the ASR provider responds with HTTP success but neither
its transcript field nor its text field holds a usable (non-empty) value,
the run returns the 500 transcription-failure body echoing the provider
response as details, makes no further provider call after the ASR call, and
leaves the history unchanged. -/
theorem C6_no_transcript_aborts (w : World) (h : List Turn)
    (hok : w.asr.ok = true)
    (hno : strTruthy (pyOr w.asr.json.transcript w.asr.json.text) = false) :
    (transcribe_and_chat true true w h).response =
      .serverError "Failed to transcribe audio. No transcript returned."
        (.asrData w.asr.json) ∧
    (transcribe_and_chat true true w h).calls = [.asrCall] ∧
    (transcribe_and_chat true true w h).history = h := by
  unfold transcribe_and_chat
  simp [hok, hno]

/-- A world whose ASR response is HTTP-success with an absent transcript
field and an empty text field. -/
def wNoTranscript : World :=
  { wOK with asr := { ok := true, json := { transcript := none, text := some "" } } }

/-- Witness for C6: the theorem applied to the concrete world
`wNoTranscript`. -/
theorem C6_witness :
    (transcribe_and_chat true true wNoTranscript []).response =
      .serverError "Failed to transcribe audio. No transcript returned."
        (.asrData wNoTranscript.asr.json) ∧
    (transcribe_and_chat true true wNoTranscript []).calls = [.asrCall] ∧
    (transcribe_and_chat true true wNoTranscript []).history = [] :=
  C6_no_transcript_aborts wNoTranscript [] rfl rfl

/-- Claim C7: the knowledge base is re-read on every request and its absence
is non-fatal.  First, `read_data_txt` maps an absent file to the placeholder
error string.  Second, whenever a run makes the LLM call, the system message
of that call is built from the file state observed by that very run (no
caching).  Third, the response and the history of a run do not depend on the
file state at all — in particular an absent file never aborts the request. -/
theorem C7_knowledge_base_fresh_nonfatal :
    read_data_txt .absent = "Error: Knowledge base file (data.txt) not found." ∧
    (∀ (k a : Bool) (w : World) (h : List Turn) (msgs : List Turn),
      ExtCall.llmCall msgs ∈ (transcribe_and_chat k a w h).calls →
      ∃ t, msgs =
        Turn.mk "system" (SYSTEM_PROMPT_BASE ++ "\n\nKnowledge base from data.txt:\n" ++
          read_data_txt w.dataFile) :: (h ++ [Turn.mk "user" t])) ∧
    (∀ (k a : Bool) (w : World) (h : List Turn),
      (transcribe_and_chat k a { w with dataFile := .absent } h).response =
        (transcribe_and_chat k a w h).response ∧
      (transcribe_and_chat k a { w with dataFile := .absent } h).history =
        (transcribe_and_chat k a w h).history) := by
  refine ⟨rfl, ?_, ?_⟩
  · intro k a w h msgs hmem
    obtain ⟨r, hr⟩ : ∃ r, transcribe_and_chat k a w h = r := ⟨_, rfl⟩
    rw [hr] at hmem
    unfold transcribe_and_chat at hr
    simp only [] at hr
    repeat' split at hr
    all_goals subst hr
    all_goals simp at hmem
    all_goals subst hmem
    all_goals exact ⟨_, rfl⟩
  · intro k a w h
    obtain ⟨asr, ten, llm, tte, tts, df⟩ := w
    unfold transcribe_and_chat
    simp only []
    constructor <;> (repeat' split) <;> rfl

/-- Like `wOK` but the knowledge-base file is absent. -/
def wNoKB : World := { wOK with dataFile := .absent }

/-- Witness for C7: on the concrete run with an absent knowledge-base file,
the LLM call carries the placeholder error string in its system message. -/
theorem C7_witness :
    ∃ t, (Turn.mk "system" (SYSTEM_PROMPT_BASE ++ "\n\nKnowledge base from data.txt:\n" ++
        "Error: Knowledge base file (data.txt) not found.") ::
        ([] ++ [Turn.mk "user" "I need a home"])) =
      Turn.mk "system" (SYSTEM_PROMPT_BASE ++ "\n\nKnowledge base from data.txt:\n" ++
        read_data_txt wNoKB.dataFile) :: ([] ++ [Turn.mk "user" t]) :=
  C7_knowledge_base_fresh_nonfatal.2.1 true true wNoKB [] _ (by decide)

/-- Claim C8: the TTS adapter returns the first element when the audios
array is non-empty; it returns no audio and logs an error when the array is
empty or absent; and a non-success HTTP status raises instead — a distinct
outcome. -/
theorem C8_tts_adapter_extraction (resp : TTSResp) :
    (resp.ok = true → resp.parseOk = true → ∀ a rest, resp.audios = some (a :: rest) →
      get_tts_audio_base64 resp = .ok (some a, false)) ∧
    (resp.ok = true → resp.parseOk = true →
      (resp.audios = some [] ∨ resp.audios = none) →
      get_tts_audio_base64 resp = .ok (none, true)) ∧
    (resp.ok = false → get_tts_audio_base64 resp = .error ()) := by
  obtain ⟨ok, pok, auds⟩ := resp
  refine ⟨?_, ?_, ?_⟩
  · rintro rfl rfl a rest rfl; rfl
  · rintro rfl rfl (rfl | rfl) <;> rfl
  · rintro rfl; rfl

/-- Witness for C8: the adapter evaluated on a concrete single-chunk
response. -/
theorem C8_witness :
    get_tts_audio_base64 { ok := true, parseOk := true, audios := some ["QUJD"] } =
      .ok (some "QUJD", false) :=
  (C8_tts_adapter_extraction _).1 rfl rfl "QUJD" [] rfl

/-- Claim C9: when every step through reply translation succeeds and the
TTS provider responds with HTTP success but an empty or absent audios
array, the endpoint still returns the 200 body with a null audioBase64
field, and the shared history has still grown by two turns. -/
theorem C9_empty_tts_still_200 (w : World) (h : List Turn) (r : String)
    (h1 : w.asr.ok = true)
    (h2 : strTruthy (pyOr w.asr.json.transcript w.asr.json.text) = true)
    (h3 : w.translateEn.ok = true)
    (h4 : w.llm.ok = true)
    (h5 : llm_extract w.llm.choices = some r)
    (h6 : r ≠ "")
    (h7 : w.translateTe.ok = true)
    (h8 : w.tts.ok = true)
    (h9 : w.tts.parseOk = true)
    (h10 : w.tts.audios = some [] ∨ w.tts.audios = none) :
    (∃ ut t rep, (transcribe_and_chat true true w h).response =
      .success ut t r rep none) ∧
    (transcribe_and_chat true true w h).history.length = h.length + 2 := by
  rcases h10 with h10 | h10 <;>
  · unfold transcribe_and_chat
    simp [h1, h2, h3, h4, h5, h6, h7, h8, h9, h10,
          translate_to_english, translate_to_telugu, get_tts_audio_base64]

/-- Like `wOK` but the TTS response carries an empty audios array. -/
def wEmptyAudio : World :=
  { wOK with tts := { ok := true, parseOk := true, audios := some [] } }

/-- Witness for C9: the theorem applied to the concrete world
`wEmptyAudio`. -/
theorem C9_witness :
    (∃ ut t rep, (transcribe_and_chat true true wEmptyAudio []).response =
      .success ut t "Two BHK in Gurgaon." rep none) ∧
    (transcribe_and_chat true true wEmptyAudio []).history.length =
      ([] : List Turn).length + 2 :=
  C9_empty_tts_still_200 wEmptyAudio [] "Two BHK in Gurgaon." rfl rfl rfl rfl rfl
    (by decide) rfl rfl rfl (Or.inl rfl)

/-- Claim C10: when the ASR body has no usable transcript field but a
non-empty text field, the pipeline does not fail at the transcription step:
it never returns the transcription-failure body, and it proceeds by sending
the text-field value into the pivot translation. -/
theorem C10_text_field_fallback (w : World) (h : List Turn) (s : String)
    (h1 : w.asr.ok = true)
    (h2 : strTruthy w.asr.json.transcript = false)
    (h3 : w.asr.json.text = some s)
    (h4 : s ≠ "") :
    (∀ d, (transcribe_and_chat true true w h).response ≠
      .serverError "Failed to transcribe audio. No transcript returned." d) ∧
    ExtCall.translateEnCall s ∈ (transcribe_and_chat true true w h).calls := by
  have hpy : pyOr w.asr.json.transcript w.asr.json.text = some s := by
    simp [pyOr, h2, h3]
  have hst : strTruthy (some s) = true := by simp [strTruthy, h4]
  obtain ⟨r, hr⟩ : ∃ r, transcribe_and_chat true true w h = r := ⟨_, rfl⟩
  rw [hr]
  unfold transcribe_and_chat at hr
  simp only [] at hr
  rw [hpy] at hr
  simp only [h1, hst, Bool.not_true, Option.getD_some] at hr
  simp only [if_neg (by simp : ¬((false : Bool) = true))] at hr
  repeat' split at hr
  all_goals subst hr
  all_goals refine ⟨fun d heq => ?_, by simp⟩
  all_goals first
    | exact Resp.noConfusion heq
    | (injection heq with e1 e2; exact absurd e1 (by decide))

/-- A world whose ASR response has an absent transcript field but a
non-empty text field. -/
def wTextOnly : World :=
  { wOK with asr := { ok := true, json := { transcript := none, text := some "ghar chahiye" } } }

/-- Witness for C10: the theorem applied to the concrete world
`wTextOnly`. -/
theorem C10_witness :
    (∀ d, (transcribe_and_chat true true wTextOnly []).response ≠
      .serverError "Failed to transcribe audio. No transcript returned." d) ∧
    ExtCall.translateEnCall "ghar chahiye" ∈ (transcribe_and_chat true true wTextOnly []).calls :=
  C10_text_field_fallback wTextOnly [] "ghar chahiye" rfl rfl rfl (by decide)

end MB3
